import Mathlib

/-!
Verification of the helper functions in `src/utils.py` of the PEARL
repository (A3C training utilities).  Each Python function relevant to a
claim is embedded as a Lean definition; external library behaviour
(optimizer steps, dtype casts) is abstracted as a universally quantified
function parameter, so no theorem depends on a stubbed implementation.
Python floats and numpy scalars are modelled as rationals, Python ints as
`Int` (sizes as `Nat` where the source can only produce non-negative
values), and fallible operations (division that can raise
`ZeroDivisionError`) return `Option`.
-/

/-! ### sync_and_optimize, lines 62-66: discounted-return buffer

Mirrors
```
value = 0
buffer_v_target = []
for reward in reversed(buffer_reward):
    value = reward + gamma * value
    buffer_v_target.insert(0, value)
```
The loop state is the pair `(value, buffer_v_target)`; iterating over the
reversed list is a `foldl` over `buffer_reward.reverse`, and
`insert(0, value)` prepends. -/
def buffer_v_target (buffer_reward : List ℚ) (gamma : ℚ) : List ℚ :=
  (buffer_reward.reverse.foldl
    (fun (st : ℚ × List ℚ) reward =>
      (reward + gamma * st.1, (reward + gamma * st.1) :: st.2))
    (0, [])).2

/-- The standard backward discounted-return recurrence, written as a
structural recursion: `v_n = r_n` (since the tail contributes `0`) and
`v_i = r_i + gamma * v_(i+1)`.  Used to state the correctness of
`buffer_v_target`. -/
def discountedReturns (gamma : ℚ) : List ℚ → List ℚ
  | [] => []
  | r :: rest =>
    let vs := discountedReturns gamma rest
    (r + gamma * vs.headD 0) :: vs

/-! ### sync_and_optimize, lines 78-86: parameter synchronisation

A model's trainable state is a list of parameter values together with a
list of optional gradients (`None` when no gradient is populated).
`optimizer.step()` is abstracted as an arbitrary function `step` from the
global model's state to its new parameter values, and the gradients the
local model holds after `loss.backward()` are an arbitrary list
`lgrads`. -/
structure ModelState where
  params : List ℚ
  grads : List (Option ℚ)
deriving Repr, DecidableEq

/-- Lines 80-82: `for local_param, global_param in zip(...): if
local_param.grad is not None: global_param._grad = local_param.grad`.
Python's `zip` stops at the shorter list and the remaining global
gradients are untouched. -/
def copy_grads : List (Option ℚ) → List (Option ℚ) → List (Option ℚ)
  | _, [] => []
  | [], gs => gs
  | l :: ls, g :: gs => (if l.isSome then l else g) :: copy_grads ls gs

/-- Lines 78-86 of `sync_and_optimize`: zero the local gradients and run
`loss.backward()` (together these leave the local gradients at `lgrads`),
copy non-`None` local gradients onto the global model, run
`optimizer.step()` (abstracted as `step`, updating the global parameter
values), and finally `local_model.load_state_dict(global_model.state_dict())`,
which overwrites the local parameter values with the global ones.
Returns `(local_model, global_model)` at the point of return. -/
def sync_and_optimize_params (step : ModelState → List ℚ)
    (lgrads : List (Option ℚ)) (local_model global_model : ModelState) :
    ModelState × ModelState :=
  let lm : ModelState := { local_model with grads := lgrads }
  let gm : ModelState := { global_model with grads := copy_grads lm.grads global_model.grads }
  let gm : ModelState := { gm with params := step gm }
  let lm : ModelState := { lm with params := gm.params }
  (lm, gm)

/-! ### numpy_to_tensor, lines 19-29 -/

/-- The numpy/torch scalar dtypes the call sites use. -/
inductive DType
  | float32
  | float64
  | int32
  | int64
deriving Repr, DecidableEq

/-- A numpy array: a dtype tag plus element values (modelled as
rationals). -/
structure NpArray where
  dtype : DType
  data : List ℚ
deriving Repr, DecidableEq

/-- A torch tensor produced from a numpy array. -/
structure TorchTensor where
  dtype : DType
  data : List ℚ
deriving Repr, DecidableEq

/-- `array.astype(dtype)`: element-wise value conversion.  The numerical
effect of a cast is library behaviour, abstracted as the function
`cast`. -/
def NpArray.astype (cast : DType → ℚ → ℚ) (a : NpArray) (d : DType) : NpArray :=
  { dtype := d, data := a.data.map (cast d) }

/-- `torch.from_numpy(array)`: wraps the array's buffer, preserving dtype
and values. -/
def torch_from_numpy (a : NpArray) : TorchTensor :=
  { dtype := a.dtype, data := a.data }

/-- `tensor.numpy()` / `np.array(tensor)`: the tensor viewed back as a
numpy array, preserving dtype and values. -/
def tensor_to_numpy (t : TorchTensor) : NpArray :=
  { dtype := t.dtype, data := t.data }

/-- Lines 19-29 of `utils.py`:
```
if array.dtype != dtype:
    array = array.astype(dtype)
return torch.from_numpy(array)
```
parametrised by the library's cast behaviour. -/
def numpy_to_tensor (cast : DType → ℚ → ℚ) (array : NpArray) (dtype : DType) :
    TorchTensor :=
  let array := if array.dtype ≠ dtype then array.astype cast dtype else array
  torch_from_numpy array

/-! ### log_episode_results, lines 88-97 -/

/-- A Python value appearing in an episode record: a number or a bool. -/
inductive PyVal
  | num (q : ℚ)
  | bool (b : Bool)
deriving Repr, DecidableEq

/-- Line 97: `result_queue.put([episode_reward, success, episode_spl])`.
The queue is modelled as the list of records pushed so far; `put` appends
at the back.  The function's only effect is this push, so its embedding
returns the updated queue. -/
def log_episode_results (result_queue : List (List PyVal))
    (episode_reward : ℚ) (success : Bool) (episode_spl : ℚ) :
    List (List PyVal) :=
  result_queue ++ [[PyVal.num episode_reward, PyVal.bool success, PyVal.num episode_spl]]

/-! ### generate_model_filename, lines 99-124

`prefix` is a reserved word in Lean, so the first parameter is named
`prefixArg`.  The trailing `gc.collect()` has no observable effect on the
returned string and is omitted. -/
def generate_model_filename (prefixArg : String) (model_name : String)
    (input_size : Int) (max_global_episodes : Int)
    (self_adjusted_task_steps : Option Int) : String :=
  if model_name = "Encoder" then
    let filename := "A3C&" ++ model_name ++ toString input_size ++ "-1"
    match self_adjusted_task_steps with
    | some steps =>
        filename ++ "_" ++ toString steps ++ "N_ep" ++ toString max_global_episodes
    | none => filename ++ "_ep" ++ toString max_global_episodes
  else
    let filename := prefixArg ++ "A3C_" ++ model_name ++ toString input_size ++ "-1"
    match self_adjusted_task_steps with
    | some steps =>
        filename ++ "_recon_" ++ toString steps ++ "N_ep" ++ toString max_global_episodes
    | none => filename ++ "_ep" ++ toString max_global_episodes

/-! ### compute_epoch_loss, lines 126-137 -/

/-- One batch yielded by the data loader, reduced to what the function
observes of it: `inputs.size(0)` (the first dimension) and the value of
`loss_fn(model(inputs), inputs, reduction='sum')` for that batch. -/
structure Batch where
  size : Nat
  loss : ℚ
deriving Repr, DecidableEq

/-- Lines 126-137: accumulate `(total_loss, num_samples)` over the loader
and return `total_loss / num_samples`.  In Python the final division
raises `ZeroDivisionError` when `num_samples = 0`, modelled by `none`. -/
def compute_epoch_loss (batches : List Batch) : Option ℚ :=
  let acc := batches.foldl
    (fun (st : ℚ × Nat) b => (st.1 + b.loss, st.2 + b.size)) (0, 0)
  if acc.2 = 0 then none else some (acc.1 / (acc.2 : ℚ))

/-! ## Theorems -/

/-- Bridge lemma: the Python loop state (the pair `(value, buffer_v_target)`)
after processing all of `rs` equals the pair (head value, returns list) of
the structural recursion. -/
theorem buffer_v_target_loop_state (gamma : ℚ) (rs : List ℚ) :
    rs.reverse.foldl
      (fun (st : ℚ × List ℚ) reward =>
        (reward + gamma * st.1, (reward + gamma * st.1) :: st.2))
      (0, []) =
      ((discountedReturns gamma rs).headD 0, discountedReturns gamma rs) := by
  induction rs with
  | nil => rfl
  | cons r rest ih =>
      rw [List.reverse_cons, List.foldl_append, ih]
      simp [discountedReturns]

/-- The loop in `sync_and_optimize` computes the structural recursion. -/
theorem buffer_v_target_eq_discountedReturns (rs : List ℚ) (gamma : ℚ) :
    buffer_v_target rs gamma = discountedReturns gamma rs := by
  unfold buffer_v_target
  rw [buffer_v_target_loop_state]

theorem discountedReturns_length (gamma : ℚ) (rs : List ℚ) :
    (discountedReturns gamma rs).length = rs.length := by
  induction rs with
  | nil => rfl
  | cons r rest ih => simp [discountedReturns, ih]

theorem headD_eq_getD_zero (l : List ℚ) : l.headD 0 = l.getD 0 0 := by
  cases l <;> rfl

theorem discountedReturns_rec (gamma : ℚ) (rs : List ℚ) (i : ℕ)
    (h : i + 1 < rs.length) :
    (discountedReturns gamma rs).getD i 0 =
      rs.getD i 0 + gamma * (discountedReturns gamma rs).getD (i + 1) 0 := by
  induction rs generalizing i with
  | nil => simp at h
  | cons r rest ih =>
      cases i with
      | zero =>
          simp only [discountedReturns, List.getD_cons_zero, List.getD_cons_succ]
          rw [headD_eq_getD_zero]
      | succ j =>
          simp only [discountedReturns, List.getD_cons_succ]
          exact ih j (by simpa using h)

theorem discountedReturns_last (gamma : ℚ) (rs : List ℚ) (h : rs ≠ []) :
    (discountedReturns gamma rs).getD (rs.length - 1) 0 =
      rs.getD (rs.length - 1) 0 := by
  induction rs with
  | nil => exact absurd rfl h
  | cons r rest ih =>
      cases rest with
      | nil => simp [discountedReturns]
      | cons r2 rest2 =>
          have ih2 := ih (List.cons_ne_nil r2 rest2)
          simp only [List.length_cons, Nat.add_sub_cancel] at ih2 ⊢
          simpa [discountedReturns, List.getD_cons_succ] using ih2

/-- C1: in `sync_and_optimize`, for every reward sequence
`buffer_reward = [r0, ..., rn]` and every discount `gamma`, the
constructed `buffer_v_target` has the same length `n + 1` and satisfies
the standard backward discounted-return recurrence: the last entry is
`r_n` and entry `i` is `r_i + gamma * v_(i+1)` for `i < n`. -/
theorem sync_and_optimize_v_target_correct (buffer_reward : List ℚ) (gamma : ℚ) :
    (buffer_v_target buffer_reward gamma).length = buffer_reward.length ∧
    (∀ i, i + 1 < buffer_reward.length →
      (buffer_v_target buffer_reward gamma).getD i 0 =
        buffer_reward.getD i 0 +
          gamma * (buffer_v_target buffer_reward gamma).getD (i + 1) 0) ∧
    (buffer_reward ≠ [] →
      (buffer_v_target buffer_reward gamma).getD (buffer_reward.length - 1) 0 =
        buffer_reward.getD (buffer_reward.length - 1) 0) := by
  rw [buffer_v_target_eq_discountedReturns]
  exact ⟨discountedReturns_length gamma buffer_reward,
    fun i hi => discountedReturns_rec gamma buffer_reward i hi,
    fun h => discountedReturns_last gamma buffer_reward h⟩

/-- Witness for C1 at `buffer_reward = [1, 2, 3]`, `gamma = 1/2`. -/
theorem sync_and_optimize_v_target_correct_witness :
    (buffer_v_target [1, 2, 3] (1/2)).length = ([1, 2, 3] : List ℚ).length ∧
    (buffer_v_target [1, 2, 3] (1/2)).getD 0 0 =
      ([1, 2, 3] : List ℚ).getD 0 0 +
        (1/2) * (buffer_v_target [1, 2, 3] (1/2)).getD 1 0 ∧
    (buffer_v_target [1, 2, 3] (1/2)).getD 2 0 = ([1, 2, 3] : List ℚ).getD 2 0 := by
  obtain ⟨h1, h2, h3⟩ := sync_and_optimize_v_target_correct [1, 2, 3] (1/2)
  exact ⟨h1, h2 0 (by norm_num), h3 (by simp)⟩

/-- C2: `generate_model_filename` with an empty prefix, model name
`Encoder`, input size 4, 100 episodes and no step count returns exactly
the string `A3C&Encoder4-1_ep100`. -/
theorem generate_model_filename_encoder_example :
    generate_model_filename "" "Encoder" 4 100 none = "A3C&Encoder4-1_ep100" := by
  rfl

/-- Counterexample to C3 as stated: two calls that agree on the model
name, episode count and step count but differ in `input_size` return
different strings, because `input_size` is interpolated into the
filename. -/
theorem generate_model_filename_input_size_dependent :
    generate_model_filename "" "Encoder" 4 100 none ≠
      generate_model_filename "" "Encoder" 5 100 none := by
  decide

/-- C3 (amended): the generated filename depends only on the model name,
the input size, the episode count and the optional step count; the prefix
is additionally relevant only when the model name is not `Encoder`.  Two
calls agreeing on those return equal strings. -/
theorem generate_model_filename_template_determined (p1 p2 m1 m2 : String)
    (i1 i2 e1 e2 : Int) (s1 s2 : Option Int)
    (hm : m1 = m2) (hi : i1 = i2) (he : e1 = e2) (hs : s1 = s2)
    (hp : m1 = "Encoder" ∨ p1 = p2) :
    generate_model_filename p1 m1 i1 e1 s1 =
      generate_model_filename p2 m2 i2 e2 s2 := by
  subst hm hi he hs
  rcases hp with hm | hp
  · subst hm
    rfl
  · subst hp
    rfl

/-- Witness for the amended C3 with differing prefixes and the `Encoder`
model name. -/
theorem generate_model_filename_template_determined_witness :
    generate_model_filename "x" "Encoder" 4 100 (some 7) =
      generate_model_filename "y" "Encoder" 4 100 (some 7) :=
  generate_model_filename_template_determined "x" "y" "Encoder" "Encoder"
    4 4 100 100 (some 7) (some 7) rfl rfl rfl rfl (Or.inl rfl)

/-- C6: `generate_model_filename` is deterministic and stateless.  Its
embedding takes no state argument (the source reads no global mutable
state; `gc.collect()` does not influence the result), and any two calls
with the same full argument tuple return the identical string. -/
theorem generate_model_filename_deterministic (p1 p2 m1 m2 : String)
    (i1 i2 e1 e2 : Int) (s1 s2 : Option Int)
    (hp : p1 = p2) (hm : m1 = m2) (hi : i1 = i2) (he : e1 = e2) (hs : s1 = s2) :
    generate_model_filename p1 m1 i1 e1 s1 =
      generate_model_filename p2 m2 i2 e2 s2 := by
  subst hp hm hi he hs
  rfl

/-- Witness for C6 at a concrete argument tuple. -/
theorem generate_model_filename_deterministic_witness :
    generate_model_filename "pre" "VAE" 8 500 (some 3) =
      generate_model_filename "pre" "VAE" 8 500 (some 3) :=
  generate_model_filename_deterministic "pre" "pre" "VAE" "VAE"
    8 8 500 500 (some 3) (some 3) rfl rfl rfl rfl rfl

/-- C7: `generate_model_filename` is total: for every combination of the
five arguments (any strings and integers, and `none` or any integer for
the step count) it returns a string.  Its embedding is a total Lean
function into `String`, with no error case. -/
theorem generate_model_filename_total (prefixArg model_name : String)
    (input_size max_global_episodes : Int)
    (self_adjusted_task_steps : Option Int) :
    ∃ out : String,
      generate_model_filename prefixArg model_name input_size
        max_global_episodes self_adjusted_task_steps = out :=
  ⟨_, rfl⟩

/-- Counterexample to C9 as stated: with prefix `"A"` and model name
`Encoder` the result `A3C&Encoder4-1_ep100` does contain the prefix as a
substring (it starts with `A`), so "the result never contains the prefix"
is false, even though the prefix argument is never used. -/
theorem generate_model_filename_contains_prefix_string :
    ("A".data) <:+: (generate_model_filename "A" "Encoder" 4 100 none).data := by
  decide

/-- C9 (amended): when `model_name = "Encoder"` the prefix argument has no
effect on the output: for all prefixes the result equals the result for
any other prefix, in particular the one for the empty prefix (the prefix
is never interpolated into the filename, though it may coincidentally
occur in it as a substring). -/
theorem generate_model_filename_encoder_ignores_prefix (p1 p2 : String)
    (input_size max_global_episodes : Int)
    (self_adjusted_task_steps : Option Int) :
    generate_model_filename p1 "Encoder" input_size max_global_episodes
        self_adjusted_task_steps =
      generate_model_filename p2 "Encoder" input_size max_global_episodes
        self_adjusted_task_steps := by
  rfl

/-- C4: for every array whose dtype already equals the requested dtype,
`numpy_to_tensor` performs no cast (the result is exactly
`torch.from_numpy` of the original array, untouched by `astype` for any
cast behaviour of the library), and converting the returned tensor back
to a numpy array yields an array with the same dtype and element values. -/
theorem numpy_to_tensor_round_trip (cast : DType → ℚ → ℚ) (array : NpArray)
    (dtype : DType) (h : array.dtype = dtype) :
    numpy_to_tensor cast array dtype = torch_from_numpy array ∧
    tensor_to_numpy (numpy_to_tensor cast array dtype) = array := by
  unfold numpy_to_tensor
  rw [if_neg (by simp [h])]
  exact ⟨rfl, rfl⟩

/-- Witness for C4 at a concrete float32 array. -/
theorem numpy_to_tensor_round_trip_witness :
    numpy_to_tensor (fun _ q => q) ⟨DType.float32, [1, 3/2]⟩ DType.float32 =
      torch_from_numpy ⟨DType.float32, [1, 3/2]⟩ ∧
    tensor_to_numpy
        (numpy_to_tensor (fun _ q => q) ⟨DType.float32, [1, 3/2]⟩ DType.float32) =
      ⟨DType.float32, [1, 3/2]⟩ :=
  numpy_to_tensor_round_trip (fun _ q => q) ⟨DType.float32, [1, 3/2]⟩
    DType.float32 rfl

/-- C5: `log_episode_results` pushes exactly one record onto
`result_queue`, namely the 3-element list
`[episode_reward, success, episode_spl]` in that order, and has no other
effect: the queue grows by one, its previous contents are unchanged, and
the new last record is exactly that list. -/
theorem log_episode_results_pushes_one_record (result_queue : List (List PyVal))
    (episode_reward episode_spl : ℚ) (success : Bool) :
    (log_episode_results result_queue episode_reward success episode_spl).length =
      result_queue.length + 1 ∧
    (log_episode_results result_queue episode_reward success episode_spl).take
        result_queue.length = result_queue ∧
    (log_episode_results result_queue episode_reward success episode_spl).getLast? =
      some [PyVal.num episode_reward, PyVal.bool success, PyVal.num episode_spl] := by
  refine ⟨?_, ?_, ?_⟩
  · simp [log_episode_results]
  · simp [log_episode_results, List.take_left]
  · simp [log_episode_results]

/-- C8: postcondition of `sync_and_optimize`: at return, the local
model's parameters have been overwritten with the global model's
parameters as they stand after the optimizer step, so the two parameter
lists are equal, for every optimizer behaviour `step` and every gradient
configuration. -/
theorem sync_and_optimize_syncs_params (step : ModelState → List ℚ)
    (lgrads : List (Option ℚ)) (local_model global_model : ModelState) :
    (sync_and_optimize_params step lgrads local_model global_model).1.params =
      (sync_and_optimize_params step lgrads local_model global_model).2.params := by
  rfl

theorem compute_epoch_loss_fold (batches : List Batch) (a : ℚ) (n : ℕ) :
    batches.foldl (fun (st : ℚ × ℕ) b => (st.1 + b.loss, st.2 + b.size)) (a, n) =
      (a + (batches.map Batch.loss).sum, n + (batches.map Batch.size).sum) := by
  induction batches generalizing a n with
  | nil => simp
  | cons b rest ih => simp [ih, add_assoc]

/-- C10: `compute_epoch_loss` divides the accumulated loss by the total
sample count with no emptiness guard: whenever the loader yields at least
one batch with positive first dimension it returns
(sum of per-batch summed losses) / (total sample count), and for an empty
loader the division is by zero and the call fails (modelled as `none`). -/
theorem compute_epoch_loss_spec (batches : List Batch)
    (h : ∃ b ∈ batches, 0 < b.size) :
    compute_epoch_loss batches =
      some ((batches.map Batch.loss).sum /
        (((batches.map Batch.size).sum : ℕ) : ℚ)) ∧
    compute_epoch_loss [] = none := by
  constructor
  · unfold compute_epoch_loss
    rw [compute_epoch_loss_fold]
    have hn : (batches.map Batch.size).sum ≠ 0 := by
      obtain ⟨b, hb, hpos⟩ := h
      have hle : b.size ≤ (batches.map Batch.size).sum :=
        List.single_le_sum (fun x _ => Nat.zero_le x) _
          (List.mem_map_of_mem Batch.size hb)
      omega
    simp [hn]
  · rfl

/-- Witness for C10 at a one-batch loader with 2 samples and summed
loss 5. -/
theorem compute_epoch_loss_spec_witness :
    compute_epoch_loss [⟨2, 5⟩] =
      some ((([⟨2, 5⟩] : List Batch).map Batch.loss).sum /
        ((((([⟨2, 5⟩] : List Batch).map Batch.size).sum : ℕ)) : ℚ)) ∧
    compute_epoch_loss [] = none :=
  compute_epoch_loss_spec [⟨2, 5⟩] ⟨⟨2, 5⟩, by decide, by decide⟩
